import Mathlib

/-!
Verification of the SmartBits binary-clock watch face (src/SmartBits.c).

The embedding models the core of the program: the layout constants, the
coordinate mapper getCenter, the three layer render procedures
(time_update, battery_update, connected_update) as pure functions that
return the list of toggle_led draw calls they emit, and the two
notification handlers (handle_battery, handle_connected) as transitions
on the program's global state.
-/

/-- A 2D point, as returned by getCenter. Coordinates are modelled as
unbounded integers; all values produced in the program are far below any
machine bound. -/
structure GPoint where
  x : Int
  y : Int
deriving DecidableEq, Repr

/-- Source constant kSpace = 4 (SmartBits.c line 5). -/
def kSpace : Int := 4

/-- Source constant kDotRadius = 12 (SmartBits.c line 6). -/
def kDotRadius : Int := 12

/-- Source constant kMonthColumn = 0. -/
def kMonthColumn : Int := 0

/-- Source constant kDayOfMonthColumn = 1. -/
def kDayOfMonthColumn : Int := 1

/-- Source constant kHourColumn = 2. -/
def kHourColumn : Int := 2

/-- Source constant kMinuteColumn = 3. -/
def kMinuteColumn : Int := 3

/-- Source constant kSecondColumn = 4. -/
def kSecondColumn : Int := 4

/-- Source constant kWeekDayLine = 5 (the 6th line). -/
def kWeekDayLine : Int := 5

/-- getCenter (SmartBits.c lines 202-205): center of the LED at a given
column and row. -/
def getCenter (col row : Int) : GPoint :=
  ⟨kDotRadius * (1 + 2 * col) + kSpace * col + kSpace,
   kDotRadius * (1 + 2 * row) + kSpace * row + kSpace / 2⟩

/-- One toggle_led invocation: which cell was drawn and in which state
(on = white, off = black). -/
structure DrawCall where
  col : Int
  row : Int
  led_on : Bool
deriving DecidableEq, Repr

/-- toggle_led (SmartBits.c lines 208-211): one draw call for the LED at
(col, row) with the given state. -/
def toggle_led (col row : Int) (led_on : Bool) : DrawCall :=
  ⟨col, row, led_on⟩

/-- C conversion of an integer expression to bool when passed as the
bool parameter of toggle_led: nonzero means true. -/
def cBool (n : Nat) : Bool := n != 0

/-- The fields of struct tm that time_update reads. In the program they
are C ints holding the documented nonnegative calendar ranges. -/
structure Tm where
  tm_sec : Nat
  tm_min : Nat
  tm_hour : Nat
  tm_mday : Nat
  tm_mon : Nat
  tm_wday : Nat
deriving DecidableEq, Repr

/-- The displayed hour computed by time_update (SmartBits.c lines
142-143): the raw hour in 24-hour style, otherwise hour mod 12 with 0
shown as 12. -/
def displayHour (tm_hour : Nat) (is_24h_style : Bool) : Nat :=
  let hour := if is_24h_style then tm_hour else tm_hour % 12
  if !is_24h_style && hour == 0 then 12 else hour

/-- The pm flag computed by time_update (SmartBits.c line 144):
tm_hour / 12 converted to bool. -/
def pmFlag (tm_hour : Nat) : Bool := cBool (tm_hour / 12)

/-- The week_day value computed by time_update (SmartBits.c line 146):
tm_wday with Sunday (0) remapped to 7. -/
def weekDay7 (tm_wday : Nat) : Nat := if 0 != tm_wday then tm_wday else 7

/-- time_update (SmartBits.c lines 136-185), as the list of toggle_led
calls it performs, in source order. The clock read and the
clock_is_24h_style query are inputs. -/
def time_update (t : Tm) (is_24h_style : Bool) : List DrawCall :=
  let hour := displayHour t.tm_hour is_24h_style
  let pm := pmFlag t.tm_hour
  let month := t.tm_mon + 1
  let week_day := weekDay7 t.tm_wday
  [toggle_led kSecondColumn 0 (cBool (t.tm_sec &&& 1)),
   toggle_led kSecondColumn 1 (cBool (t.tm_sec &&& 2)),
   toggle_led kSecondColumn 2 (cBool (t.tm_sec &&& 4)),
   toggle_led kSecondColumn 3 (cBool (t.tm_sec &&& 8)),
   toggle_led kSecondColumn 4 (cBool (t.tm_sec &&& 16)),
   toggle_led kSecondColumn 5 (cBool (t.tm_sec &&& 32)),
   toggle_led kMinuteColumn 0 (cBool (t.tm_min &&& 1)),
   toggle_led kMinuteColumn 1 (cBool (t.tm_min &&& 2)),
   toggle_led kMinuteColumn 2 (cBool (t.tm_min &&& 4)),
   toggle_led kMinuteColumn 3 (cBool (t.tm_min &&& 8)),
   toggle_led kMinuteColumn 4 (cBool (t.tm_min &&& 16)),
   toggle_led kMinuteColumn 5 (cBool (t.tm_min &&& 32)),
   toggle_led kHourColumn 0 (cBool (hour &&& 1)),
   toggle_led kHourColumn 1 (cBool (hour &&& 2)),
   toggle_led kHourColumn 2 (cBool (hour &&& 4)),
   toggle_led kHourColumn 3 (cBool (hour &&& 8)),
   toggle_led kHourColumn 4 (if is_24h_style then cBool (hour &&& 16) else pm),
   toggle_led kHourColumn kWeekDayLine (cBool (week_day &&& 1)),
   toggle_led kDayOfMonthColumn 0 (cBool (t.tm_mday &&& 1)),
   toggle_led kDayOfMonthColumn 1 (cBool (t.tm_mday &&& 2)),
   toggle_led kDayOfMonthColumn 2 (cBool (t.tm_mday &&& 4)),
   toggle_led kDayOfMonthColumn 3 (cBool (t.tm_mday &&& 8)),
   toggle_led kDayOfMonthColumn 4 (cBool (t.tm_mday &&& 16)),
   toggle_led kDayOfMonthColumn kWeekDayLine (cBool (week_day &&& 2)),
   toggle_led kMonthColumn 0 (cBool (month &&& 1)),
   toggle_led kMonthColumn 1 (cBool (month &&& 2)),
   toggle_led kMonthColumn 2 (cBool (month &&& 4)),
   toggle_led kMonthColumn 3 (cBool (month &&& 8)),
   toggle_led kMonthColumn kWeekDayLine (cBool (week_day &&& 4))]

/-- BatteryChargeState as delivered by the battery service. -/
structure BatteryChargeState where
  charge_percent : Nat
  is_charging : Bool
  is_plugged : Bool
deriving DecidableEq, Repr

/-- The program's global mutable state that the handlers and status
layers touch: s_battery_current and s_connected_current
(SmartBits.c lines 30-37). -/
structure AppState where
  s_battery_current : BatteryChargeState
  s_connected_current : Bool
deriving DecidableEq, Repr

/-- handle_battery (SmartBits.c lines 63-66): stores the delivered
charge state in s_battery_current. -/
def handle_battery (charge_state : BatteryChargeState) (s : AppState) : AppState :=
  { s with s_battery_current := charge_state }

/-- handle_connected (SmartBits.c lines 69-72): stores the delivered
boolean in s_connected_current. -/
def handle_connected (connected : Bool) (s : AppState) : AppState :=
  { s with s_connected_current := connected }

/-- battery_update (SmartBits.c lines 188-191): the battery layer's
render procedure; its body is entirely commented out, so it emits no
draw calls. -/
def battery_update (_s : AppState) : List DrawCall := []

/-- connected_update (SmartBits.c lines 194-199): draws the single
connection indicator at column 0, row 4, on iff s_connected_current. -/
def connected_update (s : AppState) : List DrawCall :=
  [toggle_led 0 4 s.s_connected_current]

/-- The state of the LED at (col, row) after a list of draw calls: the
last toggle_led targeting that cell wins; none if the cell was never
drawn. -/
def ledAt (calls : List DrawCall) (col row : Int) : Option Bool :=
  ((calls.filter fun c => c.col == col && c.row == row).getLast?).map (·.led_on)

/-- Numeric value of one rendered bit: 1 if the LED at (col, row) is on,
0 if it is off or never drawn. -/
def bitVal (calls : List DrawCall) (col row : Int) : Nat :=
  match ledAt calls col row with
  | some b => b.toNat
  | none => 0

/-- Read a field back from the grid: row r of the column contributes
bit r, for rows 0 to rows-1. -/
def decodeField (calls : List DrawCall) (col : Int) (rows : Nat) : Nat :=
  (List.range rows).foldr (fun r acc => bitVal calls col (Int.ofNat r) * 2 ^ r + acc) 0

-- Sanity check that the embedding evaluates as the scenario in the spec
-- describes (23:59:59, Dec 31, Saturday, 24-hour mode).
lemma time_update_scenario_check :
    decodeField (time_update ⟨59, 59, 23, 31, 11, 6⟩ true) kSecondColumn 6 = 59 ∧
    decodeField (time_update ⟨59, 59, 23, 31, 11, 6⟩ true) kHourColumn 5 = 23 ∧
    decodeField (time_update ⟨59, 59, 23, 31, 11, 6⟩ true) kMonthColumn 4 = 12 := by
  decide

/-- The value read back from a column's rows 0-5, as a function of the
encoded field n: row r contributes bit r, where the program lit row r
with cBool (n &&& 2 ^ r). -/
def decode6 (n : Nat) : Nat :=
  (cBool (n &&& 1)).toNat * 2 ^ 0 +
    ((cBool (n &&& 2)).toNat * 2 ^ 1 +
      ((cBool (n &&& 4)).toNat * 2 ^ 2 +
        ((cBool (n &&& 8)).toNat * 2 ^ 3 +
          ((cBool (n &&& 16)).toNat * 2 ^ 4 +
            ((cBool (n &&& 32)).toNat * 2 ^ 5 + 0)))))

/-- Read-back over rows 0-4 only. -/
def decode5 (n : Nat) : Nat :=
  (cBool (n &&& 1)).toNat * 2 ^ 0 +
    ((cBool (n &&& 2)).toNat * 2 ^ 1 +
      ((cBool (n &&& 4)).toNat * 2 ^ 2 +
        ((cBool (n &&& 8)).toNat * 2 ^ 3 +
          ((cBool (n &&& 16)).toNat * 2 ^ 4 + 0))))

/-- Read-back over rows 0-3 only. -/
def decode4 (n : Nat) : Nat :=
  (cBool (n &&& 1)).toNat * 2 ^ 0 +
    ((cBool (n &&& 2)).toNat * 2 ^ 1 +
      ((cBool (n &&& 4)).toNat * 2 ^ 2 +
        ((cBool (n &&& 8)).toNat * 2 ^ 3 + 0)))

lemma decode6_eq : ∀ n : Nat, n < 64 → decode6 n = n := by decide

lemma decode5_eq : ∀ n : Nat, n < 32 → decode5 n = n := by decide

lemma decode4_eq : ∀ n : Nat, n < 16 → decode4 n = n := by decide

lemma decodeField_sec (t : Tm) (m : Bool) :
    decodeField (time_update t m) kSecondColumn 6 = decode6 t.tm_sec := rfl

lemma decodeField_min (t : Tm) (m : Bool) :
    decodeField (time_update t m) kMinuteColumn 6 = decode6 t.tm_min := rfl

lemma decodeField_hour24 (t : Tm) :
    decodeField (time_update t true) kHourColumn 5 = decode5 (displayHour t.tm_hour true) := rfl

lemma decodeField_hour12 (t : Tm) :
    decodeField (time_update t false) kHourColumn 4 = decode4 (displayHour t.tm_hour false) := rfl

lemma decodeField_mday (t : Tm) (m : Bool) :
    decodeField (time_update t m) kDayOfMonthColumn 5 = decode5 t.tm_mday := rfl

lemma decodeField_month (t : Tm) (m : Bool) :
    decodeField (time_update t m) kMonthColumn 4 = decode4 (t.tm_mon + 1) := rfl

lemma ledAt_hour_row4_12h (t : Tm) :
    ledAt (time_update t false) kHourColumn 4 = some (pmFlag t.tm_hour) := rfl

lemma displayHour_24h (h : Nat) : displayHour h true = h := rfl

lemma displayHour_12h_range : ∀ h : Nat, h < 24 →
    1 ≤ displayHour h false ∧ displayHour h false ≤ 12 := by decide

lemma pmFlag_eq : ∀ h : Nat, h < 24 → pmFlag h = decide (12 ≤ h) := by decide

lemma displayHour_12h_spec : ∀ h : Nat, h < 24 →
    displayHour h false = (if h % 12 = 0 then 12 else h % 12) := by decide

/-- C1: round-trip of the time encoding. For all valid field values and
either clock style, reading row r of each column as bit r reconstructs
the encoded fields: seconds and minutes from rows 0-5, day-of-month from
rows 0-4, month (tm_mon + 1) from rows 0-3, and the displayed hour from
rows 0-4 in 24-hour style, or from rows 0-3 in 12-hour style, where row
4 instead carries the pm flag. -/
theorem time_update_roundtrip (t : Tm) (m : Bool)
    (hs : t.tm_sec < 60) (hmin : t.tm_min < 60) (hh : t.tm_hour < 24)
    (hd1 : 1 ≤ t.tm_mday) (hd2 : t.tm_mday ≤ 31) (hmo : t.tm_mon < 12) :
    decodeField (time_update t m) kSecondColumn 6 = t.tm_sec ∧
    decodeField (time_update t m) kMinuteColumn 6 = t.tm_min ∧
    (m = true → decodeField (time_update t m) kHourColumn 5 = displayHour t.tm_hour m) ∧
    (m = false → decodeField (time_update t m) kHourColumn 4 = displayHour t.tm_hour m ∧
      ledAt (time_update t m) kHourColumn 4 = some (pmFlag t.tm_hour)) ∧
    decodeField (time_update t m) kDayOfMonthColumn 5 = t.tm_mday ∧
    decodeField (time_update t m) kMonthColumn 4 = t.tm_mon + 1 := by
  refine ⟨?_, ?_, ?_, ?_, ?_, ?_⟩
  · rw [decodeField_sec]
    exact decode6_eq t.tm_sec (by omega)
  · rw [decodeField_min]
    exact decode6_eq t.tm_min (by omega)
  · rintro rfl
    rw [decodeField_hour24, displayHour_24h]
    exact decode5_eq t.tm_hour (by omega)
  · rintro rfl
    refine ⟨?_, ledAt_hour_row4_12h t⟩
    rw [decodeField_hour12]
    have hr := displayHour_12h_range t.tm_hour hh
    exact decode4_eq _ (by omega)
  · rw [decodeField_mday]
    exact decode5_eq t.tm_mday (by omega)
  · rw [decodeField_month]
    exact decode4_eq _ (by omega)

/-- Witness for C1 at 23:59:59, Dec 31, Saturday, 24-hour style. -/
theorem time_update_roundtrip_witness :
    decodeField (time_update ⟨59, 59, 23, 31, 11, 6⟩ true) kSecondColumn 6 = 59 ∧
    decodeField (time_update ⟨59, 59, 23, 31, 11, 6⟩ true) kHourColumn 5 = 23 := by
  have h := time_update_roundtrip ⟨59, 59, 23, 31, 11, 6⟩ true
    (by decide) (by decide) (by decide) (by decide) (by decide) (by decide)
  exact ⟨h.1, h.2.2.1 rfl⟩

/-- C3: hour normalization. For hours 0-23, the displayed hour is in
1-12 in 12-hour style (hour mod 12 with 0 shown as 12), equals the raw
hour in 24-hour style, and the pm flag is set exactly when hour >= 12. -/
theorem hour_normalization (hour : Nat) (m : Bool) (hh : hour < 24) :
    (m = false → 1 ≤ displayHour hour m ∧ displayHour hour m ≤ 12 ∧
      displayHour hour m = (if hour % 12 = 0 then 12 else hour % 12)) ∧
    (m = true → displayHour hour m = hour) ∧
    pmFlag hour = decide (12 ≤ hour) := by
  refine ⟨?_, ?_, pmFlag_eq hour hh⟩
  · rintro rfl
    have hr := displayHour_12h_range hour hh
    exact ⟨hr.1, hr.2, displayHour_12h_spec hour hh⟩
  · rintro rfl
    exact displayHour_24h hour

/-- Witness for C3 at hour 13 in 12-hour style. -/
theorem hour_normalization_witness :
    displayHour 13 false = 1 ∧ pmFlag 13 = decide (12 ≤ 13) := by
  have h := hour_normalization 13 false (by decide)
  exact ⟨((h.1 rfl).2.2).trans (by decide), h.2.2⟩

lemma weekDay7_spec : ∀ w : Nat, w < 7 →
    (weekDay7 w = 7 ↔ w = 0) ∧ (w ≠ 0 → weekDay7 w = w) ∧
    1 ≤ weekDay7 w ∧ weekDay7 w ≤ 7 := by decide

/-- C4: weekday normalization. For tm_wday 0-6, week_day is 7 exactly
when tm_wday is 0 (Sunday), is tm_wday otherwise, and always lies in
1-7. -/
theorem weekday_normalization (w : Nat) (hw : w < 7) :
    (weekDay7 w = 7 ↔ w = 0) ∧ (w ≠ 0 → weekDay7 w = w) ∧
    1 ≤ weekDay7 w ∧ weekDay7 w ≤ 7 :=
  weekDay7_spec w hw

/-- Witness for C4 at Sunday (tm_wday = 0). -/
theorem weekday_normalization_witness :
    (weekDay7 0 = 7 ↔ (0 : Nat) = 0) ∧ 1 ≤ weekDay7 0 ∧ weekDay7 0 ≤ 7 := by
  have h := weekday_normalization 0 (by decide)
  exact ⟨h.1, h.2.2⟩

/-- C8: the battery layer's render procedure draws nothing, whatever the
cached battery state is. -/
theorem battery_update_noop (s : AppState) : battery_update s = [] := rfl

/-- C10: each notification handler writes exactly its own global.
handle_battery stores the delivered charge state in s_battery_current
and leaves s_connected_current alone; handle_connected stores the
delivered boolean in s_connected_current and leaves s_battery_current
alone. -/
theorem handlers_update_own_state (b : BatteryChargeState) (c : Bool) (s : AppState) :
    (handle_battery b s).s_battery_current = b ∧
    (handle_battery b s).s_connected_current = s.s_connected_current ∧
    (handle_connected c s).s_connected_current = c ∧
    (handle_connected c s).s_battery_current = s.s_battery_current :=
  ⟨rfl, rfl, rfl, rfl⟩

lemma weekday_decode_spec : ∀ w : Nat, w < 7 →
    (cBool (weekDay7 w &&& 1)).toNat + 2 * (cBool (weekDay7 w &&& 2)).toNat
      + 4 * (cBool (weekDay7 w &&& 4)).toNat = weekDay7 w := by decide

/-- C2: weekday round-trip. The three row-5 bits (hour column carrying
bit 0, day-of-month column bit 1, month column bit 2) concatenate back
to week_day, which lies in 1-7, for every tm_wday 0-6. -/
theorem weekday_bits_roundtrip (t : Tm) (m : Bool) (hw : t.tm_wday < 7) :
    bitVal (time_update t m) kHourColumn kWeekDayLine
        + 2 * bitVal (time_update t m) kDayOfMonthColumn kWeekDayLine
        + 4 * bitVal (time_update t m) kMonthColumn kWeekDayLine
      = weekDay7 t.tm_wday ∧
    1 ≤ weekDay7 t.tm_wday ∧ weekDay7 t.tm_wday ≤ 7 := by
  refine ⟨?_, (weekDay7_spec t.tm_wday hw).2.2⟩
  have h1 : bitVal (time_update t m) kHourColumn kWeekDayLine
      = (cBool (weekDay7 t.tm_wday &&& 1)).toNat := rfl
  have h2 : bitVal (time_update t m) kDayOfMonthColumn kWeekDayLine
      = (cBool (weekDay7 t.tm_wday &&& 2)).toNat := rfl
  have h3 : bitVal (time_update t m) kMonthColumn kWeekDayLine
      = (cBool (weekDay7 t.tm_wday &&& 4)).toNat := rfl
  rw [h1, h2, h3]
  exact weekday_decode_spec t.tm_wday hw

/-- Witness for C2 on a Sunday (tm_wday = 0, week_day = 7). -/
theorem weekday_bits_roundtrip_witness :
    bitVal (time_update ⟨0, 0, 0, 1, 0, 0⟩ false) kHourColumn kWeekDayLine
        + 2 * bitVal (time_update ⟨0, 0, 0, 1, 0, 0⟩ false) kDayOfMonthColumn kWeekDayLine
        + 4 * bitVal (time_update ⟨0, 0, 0, 1, 0, 0⟩ false) kMonthColumn kWeekDayLine
      = weekDay7 0 :=
  (weekday_bits_roundtrip ⟨0, 0, 0, 1, 0, 0⟩ false (by decide)).1

lemma getCenter_x (col row : Int) : (getCenter col row).x = 28 * col + 16 := by
  simp only [getCenter, kDotRadius, kSpace]
  ring

lemma getCenter_y (col row : Int) : (getCenter col row).y = 28 * row + 14 := by
  simp only [getCenter, kDotRadius, kSpace]
  norm_num
  ring

/-- C5: the coordinate mapper. getCenter matches the documented formula
with radius 12 and spacing 4, maps (0,0) to (16,14), and its x and y
components are strictly increasing in column and row respectively. -/
theorem getCenter_formula (col row col2 row2 : Int) (hc : col < col2) (hr : row < row2) :
    getCenter col row
      = ⟨12 * (1 + 2 * col) + 4 * col + 4, 12 * (1 + 2 * row) + 4 * row + 2⟩ ∧
    getCenter 0 0 = ⟨16, 14⟩ ∧
    (getCenter col row).x < (getCenter col2 row).x ∧
    (getCenter col row).y < (getCenter col row2).y := by
  refine ⟨rfl, rfl, ?_, ?_⟩
  · rw [getCenter_x, getCenter_x]
    omega
  · rw [getCenter_y, getCenter_y]
    omega

/-- Witness for C5 at columns 0 and 1, rows 0 and 1. -/
theorem getCenter_formula_witness :
    getCenter 0 0 = ⟨16, 14⟩ ∧ (getCenter 0 0).x < (getCenter 1 0).x := by
  have h := getCenter_formula 0 0 1 1 (by decide) (by decide)
  exact ⟨h.2.1, h.2.2.1⟩

lemma cBool_and_two_pow (n i : Nat) : cBool (n &&& 2 ^ i) = n.testBit i := by
  rw [cBool, Nat.and_two_pow]
  cases h : n.testBit i
  · simp
  · simp [Nat.pow_eq_zero]

/-- C6: the hour column layout. Rows 0-3 show bits 0-3 of the displayed
hour; row 4 shows bit 4 of the displayed hour in 24-hour style and the
pm flag (hour >= 12) in 12-hour style; row 5 shows bit 0 of week_day. -/
theorem hour_column_layout (t : Tm) (m : Bool) (hh : t.tm_hour < 24) :
    ledAt (time_update t m) kHourColumn 0 = some ((displayHour t.tm_hour m).testBit 0) ∧
    ledAt (time_update t m) kHourColumn 1 = some ((displayHour t.tm_hour m).testBit 1) ∧
    ledAt (time_update t m) kHourColumn 2 = some ((displayHour t.tm_hour m).testBit 2) ∧
    ledAt (time_update t m) kHourColumn 3 = some ((displayHour t.tm_hour m).testBit 3) ∧
    (m = true → ledAt (time_update t m) kHourColumn 4
      = some ((displayHour t.tm_hour m).testBit 4)) ∧
    (m = false → ledAt (time_update t m) kHourColumn 4
      = some (decide (12 ≤ t.tm_hour))) ∧
    ledAt (time_update t m) kHourColumn kWeekDayLine
      = some ((weekDay7 t.tm_wday).testBit 0) := by
  have e0 : ledAt (time_update t m) kHourColumn 0
      = some (cBool (displayHour t.tm_hour m &&& 1)) := rfl
  have e1 : ledAt (time_update t m) kHourColumn 1
      = some (cBool (displayHour t.tm_hour m &&& 2)) := rfl
  have e2 : ledAt (time_update t m) kHourColumn 2
      = some (cBool (displayHour t.tm_hour m &&& 4)) := rfl
  have e3 : ledAt (time_update t m) kHourColumn 3
      = some (cBool (displayHour t.tm_hour m &&& 8)) := rfl
  have e5 : ledAt (time_update t m) kHourColumn kWeekDayLine
      = some (cBool (weekDay7 t.tm_wday &&& 1)) := rfl
  refine ⟨?_, ?_, ?_, ?_, ?_, ?_, ?_⟩
  · rw [e0]
    exact congrArg some (by simpa using cBool_and_two_pow (displayHour t.tm_hour m) 0)
  · rw [e1]
    exact congrArg some (by simpa using cBool_and_two_pow (displayHour t.tm_hour m) 1)
  · rw [e2]
    exact congrArg some (by simpa using cBool_and_two_pow (displayHour t.tm_hour m) 2)
  · rw [e3]
    exact congrArg some (by simpa using cBool_and_two_pow (displayHour t.tm_hour m) 3)
  · rintro rfl
    have e4 : ledAt (time_update t true) kHourColumn 4
        = some (cBool (displayHour t.tm_hour true &&& 16)) := rfl
    rw [e4]
    exact congrArg some (by simpa using cBool_and_two_pow (displayHour t.tm_hour true) 4)
  · rintro rfl
    rw [ledAt_hour_row4_12h]
    exact congrArg some (pmFlag_eq t.tm_hour hh)
  · rw [e5]
    exact congrArg some (by simpa using cBool_and_two_pow (weekDay7 t.tm_wday) 0)

/-- Witness for C6 at 13:00 in 12-hour style: row 4 carries pm. -/
theorem hour_column_layout_witness :
    ledAt (time_update ⟨0, 0, 13, 1, 0, 0⟩ false) kHourColumn 4
      = some (decide (12 ≤ 13)) :=
  (hour_column_layout ⟨0, 0, 13, 1, 0, 0⟩ false (by decide)).2.2.2.2.2.1 rfl

/-- C7: the connection layer renders exactly one indicator, at column 0
row 4, lit iff s_connected_current; when the boolean toggles from false
to true, that single cell goes from off to on and nothing else is drawn
by this layer. -/
theorem connected_update_spec (s : AppState) :
    connected_update s = [toggle_led 0 4 s.s_connected_current] ∧
    (s.s_connected_current = false →
      connected_update s = [toggle_led 0 4 false] ∧
      connected_update (handle_connected true s) = [toggle_led 0 4 true]) := by
  refine ⟨rfl, fun h => ⟨?_, rfl⟩⟩
  rw [show connected_update s = [toggle_led 0 4 s.s_connected_current] from rfl, h]

/-- Witness for C7 starting from a disconnected state. -/
theorem connected_update_spec_witness :
    connected_update ⟨⟨0, false, false⟩, false⟩ = [toggle_led 0 4 false] ∧
    connected_update (handle_connected true ⟨⟨0, false, false⟩, false⟩)
      = [toggle_led 0 4 true] :=
  (connected_update_spec ⟨⟨0, false, false⟩, false⟩).2 rfl

lemma sep_helper (a b k : Int) (hab : a ≠ b) :
    (28 : Int) ≤ |28 * a + k - (28 * b + k)| := by
  have h1 : 28 * a + k - (28 * b + k) = 28 * (a - b) := by ring
  rw [h1, abs_mul]
  have h2 : (1 : Int) ≤ |a - b| := Int.one_le_abs (sub_ne_zero.mpr hab)
  have h3 : |(28 : Int)| = 28 := by norm_num
  rw [h3]
  nlinarith

/-- C9: getCenter is injective, and along each differing axis two
distinct LED addresses are at least 2 * kDotRadius + kSpace = 28 pixels
apart, so two circles of radius kDotRadius = 12 never overlap. -/
theorem getCenter_separation (c1 r1 c2 r2 : Int) (h : (c1, r1) ≠ (c2, r2)) :
    getCenter c1 r1 ≠ getCenter c2 r2 ∧
    (c1 ≠ c2 → 2 * kDotRadius + kSpace ≤ |(getCenter c1 r1).x - (getCenter c2 r2).x|) ∧
    (r1 ≠ r2 → 2 * kDotRadius + kSpace ≤ |(getCenter c1 r1).y - (getCenter c2 r2).y|) := by
  refine ⟨?_, ?_, ?_⟩
  · intro heq
    apply h
    have hx := congrArg GPoint.x heq
    have hy := congrArg GPoint.y heq
    rw [getCenter_x, getCenter_x] at hx
    rw [getCenter_y, getCenter_y] at hy
    exact Prod.ext (by omega) (by omega)
  · intro hc
    rw [getCenter_x, getCenter_x, show 2 * kDotRadius + kSpace = (28 : Int) from rfl]
    exact sep_helper c1 c2 16 hc
  · intro hr
    rw [getCenter_y, getCenter_y, show 2 * kDotRadius + kSpace = (28 : Int) from rfl]
    exact sep_helper r1 r2 14 hr

/-- Witness for C9 at the addresses (0,0) and (1,0). -/
theorem getCenter_separation_witness :
    getCenter 0 0 ≠ getCenter 1 0 ∧
    2 * kDotRadius + kSpace ≤ |(getCenter 0 0).x - (getCenter 1 0).x| := by
  have h := getCenter_separation 0 0 1 0 (by decide)
  exact ⟨h.1, h.2.1 (by decide)⟩
